import Mathlib

/-!
Formal model of the gRPC C++ client credentials abstraction
(include/grpc++/security/credentials.h).

The repository source provides the declarations of the `Credentials` class,
the factory functions and `CompositeCredentials`; the member-function bodies
live outside the provided sources.  The behaviour of those bodies is
therefore modelled from the specification, definition by definition; the
signatures, names and the documented contracts (lifetime cropping, lame
channels, the unusable sentinel) follow the header.
-/

namespace GrpcCredentials

/-- Modelled from the spec: the mutable state of one outgoing call.
`ApplyToCall` may touch `metadata` (per-call authentication metadata) and
`assertions` (transport-identity assertions); `peer` stands for the rest of
the per-call state, which a credential must never modify. -/
structure CallState where
  metadata : List (String × String)
  assertions : List String
  peer : String
deriving DecidableEq, Repr

/-- Modelled from the spec: process-global state, which `ApplyToCall` must
never mutate. -/
structure GlobalState where
  counter : Nat
deriving DecidableEq, Repr

/-- Options used to build SslCredentials, from the header: three PEM
buffers, each optionally empty. -/
structure SslCredentialsOptions where
  pem_root_certs : String
  pem_private_key : String
  pem_cert_chain : String
deriving DecidableEq, Repr

/-- Modelled from the spec: the closed set of credential variants of section
4.1, plus the composite combinator and the distinguished unusable sentinel
returned by factories on malformed input. -/
inductive Credential where
  | googleDefault
  | ssl (options : SslCredentialsOptions)
  | computeEngine
  | serviceAccountJWT (json_key : String) (token_lifetime_seconds : Int)
  | refreshToken (json_refresh_token : String)
  | accessToken (access_token : String)
  | iam (authorization_token : String) (authority_selector : String)
  | insecure
  | composite (chan : Credential) (call : Credential)
  | invalidSentinel
deriving DecidableEq, Repr

/-- Modelled from the spec: `AsSecureCredentials` returns the secure
(transport-level) view of a credential when it is channel-capable, and
nothing for plain call-only credentials and for the unusable sentinel.
The channel-capable variants per the table in section 4.1 are the
environment-default, SSL, compute-engine-default and insecure credentials;
a composite carries its transport child and is channel-capable. -/
def AsSecureCredentials : Credential → Option Credential
  | .googleDefault => some .googleDefault
  | .ssl options => some (.ssl options)
  | .computeEngine => some .computeEngine
  | .insecure => some .insecure
  | .composite a b => some (.composite a b)
  | _ => none

/-- A credential is channel-capable exactly when its secure view is
non-empty (spec section 4.2: capability is determined via
`asSecureVariant`). -/
def channelCapable (c : Credential) : Bool :=
  (AsSecureCredentials c).isSome

/-- Modelled from the spec: call-capability per the variant table of
section 4.1.  A composite layers a call-capable child so it is
call-capable; the sentinel is neither capability. -/
def callCapable : Credential → Bool
  | .googleDefault => true
  | .ssl _ => false
  | .computeEngine => true
  | .serviceAccountJWT _ _ => true
  | .refreshToken _ => true
  | .accessToken _ => true
  | .iam _ _ => true
  | .insecure => false
  | .composite _ _ => true
  | .invalidSentinel => false

/-- Modelled from the spec: the internal validity flag.  The sentinel is
unusable; a composite is usable only if both children are (so composing an
unusable credential further still yields an unusable composite). -/
def usable : Credential → Bool
  | .invalidSentinel => false
  | .composite a b => usable a && usable b
  | _ => true

/-- Modelled from the spec: `Credentials::ApplyToCall`.  Attaches the
credential variant of authentication assertion to the outgoing call;
returns false when the credential cannot produce a valid assertion.  The
global state is threaded through to express the frame condition that it is
never mutated.  A composite applies the channel child first, then the call
child, short-circuiting on the first failure (spec section 4.2); the
sentinel fails without side effects. -/
def ApplyToCall : Credential → GlobalState → CallState → Bool × GlobalState × CallState
  | .googleDefault, g, s =>
      (true, g, { s with metadata := s.metadata ++ [("authorization", "default-token")],
                         assertions := s.assertions ++ ["transport-identity"] })
  | .ssl _, g, s =>
      (true, g, { s with assertions := s.assertions ++ ["transport-identity"] })
  | .computeEngine, g, s =>
      (true, g, { s with metadata := s.metadata ++ [("authorization", "gce-token")] })
  | .serviceAccountJWT json_key _, g, s =>
      (true, g, { s with metadata := s.metadata ++ [("authorization", "jwt-" ++ json_key)] })
  | .refreshToken json, g, s =>
      (true, g, { s with metadata := s.metadata ++ [("authorization", "refreshed-" ++ json)] })
  | .accessToken tok, g, s =>
      (true, g, { s with metadata := s.metadata ++ [("authorization", tok)] })
  | .iam tok sel, g, s =>
      (true, g, { s with metadata := s.metadata ++ [("authorization", tok), ("authority", sel)] })
  | .insecure, g, s => (true, g, s)
  | .invalidSentinel, g, s => (false, g, s)
  | .composite a b, g, s =>
      let r := ApplyToCall a g s
      if r.1 then ApplyToCall b r.2.1 r.2.2 else (false, r.2.1, r.2.2)

/-- Modelled from the spec: `CompositeCredentials` determines which operand
is channel-capable via `AsSecureCredentials` and builds the composite with
the channel-capable child first; if neither operand is channel-capable, or
both are, the usage error is signalled by the unusable sentinel. -/
def CompositeCredentials (creds1 creds2 : Credential) : Credential :=
  match AsSecureCredentials creds1, AsSecureCredentials creds2 with
  | some _, none => .composite creds1 creds2
  | none, some _ => .composite creds2 creds1
  | _, _ => .invalidSentinel

/-- Modelled from the spec: a well-formedness check for the JSON blobs
consumed by the signed-token and refresh-token factories (a JSON object is
delimited by an opening and a closing brace). -/
def wellFormedJSON (s : String) : Bool :=
  decide (s.data.head? = some '\x7b') && decide (s.data.getLast? = some '\x7d')

/-- Modelled from the spec: a PEM buffer in `SslCredentialsOptions` may be
empty (meaning "use the default"); when present it must carry a PEM
delimiter, which begins with a dash. -/
def pemWellFormed (s : String) : Bool :=
  match s.data with
  | [] => true
  | c :: _ => c = '-'

/-- An `SslCredentialsOptions` record is well-formed when each of its three
PEM fields is either empty or well-formed PEM material. -/
def wellFormedSslOptions (options : SslCredentialsOptions) : Bool :=
  pemWellFormed options.pem_root_certs &&
  pemWellFormed options.pem_private_key &&
  pemWellFormed options.pem_cert_chain

/-- Maximum lifetime of an auth token, from the header contract of
`ServiceAccountJWTAccessCredentials`: a requested lifetime exceeding it is
cropped to this value.  Modelled from the spec: the numeric value of the
maximum lives outside the provided sources; one hour is used here. -/
def grpc_max_auth_token_lifetime : Int := 3600

/-- Modelled from the spec: the signed-token factory.  Fails to the
unusable sentinel when the key material is unparsable; otherwise succeeds,
silently cropping the requested token lifetime to
`grpc_max_auth_token_lifetime`. -/
def ServiceAccountJWTAccessCredentials (json_key : String)
    (token_lifetime_seconds : Int) : Credential :=
  if wellFormedJSON json_key then
    .serviceAccountJWT json_key (min token_lifetime_seconds grpc_max_auth_token_lifetime)
  else
    .invalidSentinel

/-- Modelled from the spec: the refresh-token factory; the unusable
sentinel when the JSON blob is malformed. -/
def GoogleRefreshTokenCredentials (json_refresh_token : String) : Credential :=
  if wellFormedJSON json_refresh_token then .refreshToken json_refresh_token
  else .invalidSentinel

/-- Modelled from the spec: the SSL factory; the unusable sentinel when the
certificate material is malformed. -/
def SslCredentials (options : SslCredentialsOptions) : Credential :=
  if wellFormedSslOptions options then .ssl options else .invalidSentinel

/-- The access-token factory never fails construction. -/
def AccessTokenCredentials (access_token : String) : Credential :=
  .accessToken access_token

/-- The IAM factory never fails construction. -/
def GoogleIAMCredentials (authorization_token authority_selector : String) :
    Credential :=
  .iam authorization_token authority_selector

/-- Credentials for an unencrypted, unauthenticated channel: always
succeeds. -/
def InsecureCredentials : Credential := .insecure

/-- Status of a call dispatched on a channel.  Modelled from the spec: a
call on a lame channel fails with a consistent authentication-related
status. -/
inductive StatusCode where
  | OK
  | UNAUTHENTICATED
deriving DecidableEq, Repr

/-- Modelled from the spec: the channel handle produced by
`CreateChannel`.  `lame` marks the channel that fails every call;
`transportSecured` records whether transport security is enabled. -/
structure Channel where
  target : String
  transportSecured : Bool
  lame : Bool
deriving DecidableEq, Repr

/-- Modelled from the spec: the recognized channel options, each
independently optional. -/
structure ChannelArguments where
  args : List (String × String)
deriving DecidableEq, Repr

/-- Modelled from the spec: `Credentials::CreateChannel`.  A
channel-capable credential builds a live channel (with transport security
for the secure variants and without it for the insecure one); a composite
delegates to its channel-capable child; the unusable sentinel and the plain
call-only credentials produce a lame channel, valid to hold but failing
every call. -/
def Credential.CreateChannel : Credential → String → ChannelArguments → Channel
  | .googleDefault, t, _ => ⟨t, true, false⟩
  | .ssl _, t, _ => ⟨t, true, false⟩
  | .computeEngine, t, _ => ⟨t, true, false⟩
  | .insecure, t, _ => ⟨t, false, false⟩
  | .composite a _, t, args => Credential.CreateChannel a t args
  | _, t, _ => ⟨t, false, true⟩

/-- `CreateCustomChannel` delegates to the credential. -/
def CreateCustomChannel (target : String) (creds : Credential)
    (args : ChannelArguments) : Channel :=
  creds.CreateChannel target args

/-- Dispatching a call on a channel: a lame channel fails every call with
the consistent unauthenticated status. -/
def Channel.dispatch (ch : Channel) (_ : CallState) : StatusCode :=
  if ch.lame then .UNAUTHENTICATED else .OK

/-- Modelled from the spec: the token-cache phase of one refresh-token
credential instance.  The cached token is absent or expired
(`needsRefresh`), a refresh is outstanding (`inFlight`), or a valid token
is cached (`cached`). -/
inductive RefreshPhase where
  | needsRefresh
  | inFlight
  | cached
deriving DecidableEq, Repr

/-- Modelled from the spec: the credential-internal shared state of a
refresh-token credential, together with a counter of the underlying
refresh operations issued (the counting stub refresher of section 8). -/
structure RefreshState where
  phase : RefreshPhase
  refreshCount : Nat
deriving DecidableEq, Repr

/-- Modelled from the spec: the atomic events of an interleaved execution
over one refresh-token credential: an `applyToCall` invocation by some
caller consulting the token cache, or the completion of the outstanding
refresh. -/
inductive RefreshEvent where
  | applyToCall
  | refreshDone
deriving DecidableEq, Repr

/-- Modelled from the spec: one atomic step of the refresh protocol of
section 5.  An `applyToCall` that finds no token and no outstanding
refresh issues the single refresh (incrementing the stub counter); one
that finds a refresh outstanding waits for it or reuses its result,
issuing nothing; one that finds a cached token uses it.  `refreshDone`
completes the outstanding refresh, caching its token. -/
def refreshStep (st : RefreshState) : RefreshEvent → RefreshState
  | .applyToCall =>
      match st.phase with
      | .needsRefresh => ⟨.inFlight, st.refreshCount + 1⟩
      | .inFlight => st
      | .cached => st
  | .refreshDone =>
      match st.phase with
      | .inFlight => ⟨.cached, st.refreshCount⟩
      | _ => st

/-- Running an interleaved trace of events over one refresh-token
credential instance. -/
def runRefresh (st : RefreshState) (trace : List RefreshEvent) : RefreshState :=
  trace.foldl refreshStep st

/-- The initial state of a refresh-token credential whose cached token is
absent or expired: a refresh is required and no refresh has been issued. -/
def refreshInit : RefreshState := ⟨.needsRefresh, 0⟩

/-- Inductive invariant of the refresh protocol: either no refresh has been
issued and one is still required, or exactly one has been issued. -/
def refreshInvariant (st : RefreshState) : Prop :=
  (st.phase = RefreshPhase.needsRefresh ∧ st.refreshCount = 0) ∨
  (st.phase ≠ RefreshPhase.needsRefresh ∧ st.refreshCount = 1)

/-! ### Helper lemmas -/

theorem ApplyToCall_composite (a b : Credential) (g : GlobalState) (s : CallState) :
    ApplyToCall (.composite a b) g s =
      if (ApplyToCall a g s).1 then
        ApplyToCall b (ApplyToCall a g s).2.1 (ApplyToCall a g s).2.2
      else (false, (ApplyToCall a g s).2.1, (ApplyToCall a g s).2.2) := rfl

theorem compose_chan_call (c1 c2 : Credential) (h1 : channelCapable c1 = true)
    (h2 : channelCapable c2 = false) :
    CompositeCredentials c1 c2 = .composite c1 c2 := by
  unfold channelCapable at h1 h2
  unfold CompositeCredentials
  cases hA : AsSecureCredentials c1 <;> cases hB : AsSecureCredentials c2 <;>
    simp [hA, hB] at h1 h2 ⊢

theorem compose_call_chan (c1 c2 : Credential) (h1 : channelCapable c1 = false)
    (h2 : channelCapable c2 = true) :
    CompositeCredentials c1 c2 = .composite c2 c1 := by
  unfold channelCapable at h1 h2
  unfold CompositeCredentials
  cases hA : AsSecureCredentials c1 <;> cases hB : AsSecureCredentials c2 <;>
    simp [hA, hB] at h1 h2 ⊢

theorem compose_same_capability (c1 c2 : Credential)
    (h : channelCapable c1 = channelCapable c2) :
    CompositeCredentials c1 c2 = .invalidSentinel := by
  unfold channelCapable at h
  unfold CompositeCredentials
  cases hA : AsSecureCredentials c1 <;> cases hB : AsSecureCredentials c2 <;>
    simp [hA, hB] at h ⊢

theorem compose_unusable_left (u d : Credential) (hu : usable u = false) :
    usable (CompositeCredentials u d) = false := by
  unfold CompositeCredentials
  cases hA : AsSecureCredentials u <;> cases hB : AsSecureCredentials d <;>
    simp [usable, hu]

theorem compose_unusable_right (u d : Credential) (hu : usable u = false) :
    usable (CompositeCredentials d u) = false := by
  unfold CompositeCredentials
  cases hA : AsSecureCredentials d <;> cases hB : AsSecureCredentials u <;>
    simp [usable, hu]

theorem applyToCall_preserves_frame (c : Credential) :
    ∀ (g : GlobalState) (s : CallState),
      (ApplyToCall c g s).2.1 = g ∧ (ApplyToCall c g s).2.2.peer = s.peer := by
  induction c with
  | composite a b iha ihb =>
      intro g s
      rw [ApplyToCall_composite]
      by_cases hr : (ApplyToCall a g s).1 = true
      · simp only [hr, if_true]
        obtain ⟨hg1, hp1⟩ := iha g s
        obtain ⟨hg2, hp2⟩ := ihb (ApplyToCall a g s).2.1 (ApplyToCall a g s).2.2
        exact ⟨hg2.trans hg1, hp2.trans hp1⟩
      · simp only [Bool.not_eq_true] at hr
        simp only [hr, Bool.false_eq_true, if_false]
        exact iha g s
  | _ => intro g s; exact ⟨rfl, rfl⟩

theorem refreshStep_invariant (st : RefreshState) (e : RefreshEvent)
    (h : refreshInvariant st) : refreshInvariant (refreshStep st e) := by
  obtain ⟨p, n⟩ := st
  rcases h with ⟨h1, h2⟩ | ⟨h1, h2⟩ <;> cases e <;> cases p <;>
    simp_all [refreshStep, refreshInvariant]

theorem runRefresh_invariant (trace : List RefreshEvent) (st : RefreshState)
    (h : refreshInvariant st) : refreshInvariant (runRefresh st trace) := by
  induction trace generalizing st with
  | nil => exact h
  | cons e tr ih => exact ih (refreshStep st e) (refreshStep_invariant st e h)

theorem refreshStep_phase_stable (st : RefreshState) (e : RefreshEvent)
    (h : st.phase ≠ RefreshPhase.needsRefresh) :
    (refreshStep st e).phase ≠ RefreshPhase.needsRefresh := by
  obtain ⟨p, n⟩ := st
  cases e <;> cases p <;> simp_all [refreshStep]

theorem runRefresh_phase_stable (trace : List RefreshEvent) (st : RefreshState)
    (h : st.phase ≠ RefreshPhase.needsRefresh) :
    (runRefresh st trace).phase ≠ RefreshPhase.needsRefresh := by
  induction trace generalizing st with
  | nil => exact h
  | cons e tr ih => exact ih (refreshStep st e) (refreshStep_phase_stable st e h)

theorem refreshStep_apply_leaves (st : RefreshState) :
    (refreshStep st .applyToCall).phase ≠ RefreshPhase.needsRefresh := by
  obtain ⟨p, n⟩ := st
  cases p <;> simp [refreshStep]

theorem runRefresh_mem_apply (trace : List RefreshEvent) (st : RefreshState)
    (h : RefreshEvent.applyToCall ∈ trace) :
    (runRefresh st trace).phase ≠ RefreshPhase.needsRefresh := by
  induction trace generalizing st with
  | nil => cases h
  | cons e tr ih =>
      by_cases htr : RefreshEvent.applyToCall ∈ tr
      · exact ih (refreshStep st e) htr
      · have he : e = RefreshEvent.applyToCall := by
          rcases List.mem_cons.mp h with h1 | h2
          · exact h1.symm
          · exact absurd h2 htr
        subst he
        exact runRefresh_phase_stable tr (refreshStep st .applyToCall)
          (refreshStep_apply_leaves st)

/-! ### Claim theorems -/

/-- C1: for every channel-capable credential C and call-capable credential
K, the composite built by CompositeCredentials(C, K) applies C before K;
its ApplyToCall result is true exactly when both children return true; and
when C returns false it short-circuits, leaving the call exactly as C left
it, with no effect from K. -/
theorem composite_applyToCall_order_and_shortCircuit (C K : Credential)
    (g : GlobalState) (s : CallState)
    (hC : channelCapable C = true) (hK : channelCapable K = false)
    (hKc : callCapable K = true) :
    CompositeCredentials C K = Credential.composite C K ∧
    (ApplyToCall (CompositeCredentials C K) g s).1 =
      ((ApplyToCall C g s).1 &&
        (ApplyToCall K (ApplyToCall C g s).2.1 (ApplyToCall C g s).2.2).1) ∧
    ((ApplyToCall C g s).1 = false →
      ApplyToCall (CompositeCredentials C K) g s =
        (false, (ApplyToCall C g s).2.1, (ApplyToCall C g s).2.2)) ∧
    ((ApplyToCall C g s).1 = true →
      ApplyToCall (CompositeCredentials C K) g s =
        ApplyToCall K (ApplyToCall C g s).2.1 (ApplyToCall C g s).2.2) := by
  have hcomp := compose_chan_call C K hC hK
  rw [hcomp, ApplyToCall_composite]
  cases hr : (ApplyToCall C g s).1 <;> simp [hr]

/-- Witness for C1 at the SSL transport credential and an access-token
credential. -/
theorem composite_applyToCall_order_and_shortCircuit_witness :
    CompositeCredentials (Credential.ssl ⟨"", "", ""⟩) (Credential.accessToken "abc") =
      Credential.composite (Credential.ssl ⟨"", "", ""⟩) (Credential.accessToken "abc") :=
  (composite_applyToCall_order_and_shortCircuit (Credential.ssl ⟨"", "", ""⟩)
    (Credential.accessToken "abc") ⟨0⟩ ⟨[], [], "peer"⟩
    (by decide) (by decide) (by decide)).1

/-- C2: composing two credentials of equal channel-capability (neither
channel-capable, or both) yields the rejected, unusable sentinel rather
than silently picking one operand, and composing that unusable result with
any further credential, on either side, again yields an unusable
composite. -/
theorem composite_reject_and_propagate (c1 c2 d : Credential)
    (h : channelCapable c1 = channelCapable c2) :
    CompositeCredentials c1 c2 = Credential.invalidSentinel ∧
    usable (CompositeCredentials c1 c2) = false ∧
    usable (CompositeCredentials (CompositeCredentials c1 c2) d) = false ∧
    usable (CompositeCredentials d (CompositeCredentials c1 c2)) = false := by
  have h0 := compose_same_capability c1 c2 h
  have hu : usable (CompositeCredentials c1 c2) = false := by rw [h0]; rfl
  exact ⟨h0, hu, compose_unusable_left _ d hu, compose_unusable_right _ d hu⟩

/-- Witness for C2 at two channel-capable credentials. -/
theorem composite_reject_and_propagate_witness :
    CompositeCredentials Credential.insecure (Credential.ssl ⟨"", "", ""⟩) =
      Credential.invalidSentinel :=
  (composite_reject_and_propagate Credential.insecure (Credential.ssl ⟨"", "", ""⟩)
    (Credential.accessToken "tok") (by decide)).1

/-- C3: on malformed key or JSON input, the signed-token and refresh-token
factories return the unusable sentinel credential: a genuine credential
value, on which ApplyToCall totally evaluates to false with no side
effect on the call or the global state. -/
theorem malformed_factories_return_sentinel (jk jr : String) (lt : Int)
    (g : GlobalState) (s : CallState)
    (h1 : wellFormedJSON jk = false) (h2 : wellFormedJSON jr = false) :
    ServiceAccountJWTAccessCredentials jk lt = Credential.invalidSentinel ∧
    GoogleRefreshTokenCredentials jr = Credential.invalidSentinel ∧
    ApplyToCall (ServiceAccountJWTAccessCredentials jk lt) g s = (false, g, s) ∧
    ApplyToCall (GoogleRefreshTokenCredentials jr) g s = (false, g, s) := by
  simp [ServiceAccountJWTAccessCredentials, GoogleRefreshTokenCredentials, h1, h2,
    ApplyToCall]

/-- Witness for C3 at two malformed JSON blobs. -/
theorem malformed_factories_return_sentinel_witness :
    ServiceAccountJWTAccessCredentials "notjson" 3600 = Credential.invalidSentinel :=
  (malformed_factories_return_sentinel "notjson" "also-bad" 3600 ⟨0⟩ ⟨[], [], "peer"⟩
    (by decide) (by decide)).1

/-- C4: for every non-empty target and channel configuration,
CreateCustomChannel on the unusable sentinel totally returns a channel
for that target (valid to hold and pass around); that channel is lame and
every call dispatched on it fails with the consistent unauthenticated
status. -/
theorem createCustomChannel_sentinel_lame (target : String)
    (args : ChannelArguments) (s : CallState) (h : target ≠ "") :
    CreateCustomChannel target Credential.invalidSentinel args =
      ⟨target, false, true⟩ ∧
    (CreateCustomChannel target Credential.invalidSentinel args).lame = true ∧
    Channel.dispatch (CreateCustomChannel target Credential.invalidSentinel args) s =
      StatusCode.UNAUTHENTICATED :=
  ⟨rfl, rfl, rfl⟩

/-- Witness for C4 at a concrete non-empty target. -/
theorem createCustomChannel_sentinel_lame_witness :
    CreateCustomChannel "localhost:50051" Credential.invalidSentinel ⟨[]⟩ =
      ⟨"localhost:50051", false, true⟩ :=
  (createCustomChannel_sentinel_lame "localhost:50051" ⟨[]⟩ ⟨[], [], "peer"⟩
    (by decide)).1

/-- C5: InsecureCredentials always succeeds with a usable credential that
is not the unusable sentinel; its ApplyToCall is a no-op returning true on
every call; and its CreateChannel builds a non-lame channel with no
transport security enabled. -/
theorem insecureCredentials_spec (g : GlobalState) (s : CallState)
    (t : String) (args : ChannelArguments) :
    usable InsecureCredentials = true ∧
    InsecureCredentials ≠ Credential.invalidSentinel ∧
    ApplyToCall InsecureCredentials g s = (true, g, s) ∧
    (InsecureCredentials.CreateChannel t args).transportSecured = false ∧
    (InsecureCredentials.CreateChannel t args).lame = false :=
  ⟨rfl, by decide, rfl, rfl, rfl⟩

/-- C6: for every well-formed SslCredentialsOptions record, SslCredentials
succeeds with a usable SSL credential that is channel-capable (its
AsSecureCredentials view is non-empty) and not call-capable. -/
theorem sslCredentials_channel_capable (options : SslCredentialsOptions)
    (h : wellFormedSslOptions options = true) :
    SslCredentials options = Credential.ssl options ∧
    usable (SslCredentials options) = true ∧
    channelCapable (SslCredentials options) = true ∧
    AsSecureCredentials (SslCredentials options) = some (Credential.ssl options) ∧
    callCapable (SslCredentials options) = false := by
  simp [SslCredentials, h, usable, channelCapable, AsSecureCredentials, callCapable]

/-- Witness for C6 at the all-empty (all-default) options record. -/
theorem sslCredentials_channel_capable_witness :
    SslCredentials ⟨"", "", ""⟩ = Credential.ssl ⟨"", "", ""⟩ :=
  (sslCredentials_channel_capable ⟨"", "", ""⟩ (by decide)).1

/-- C7: for every parsable json_key, ServiceAccountJWTAccessCredentials
succeeds with a usable credential whose stored lifetime is the requested
one cropped to grpc_max_auth_token_lifetime; a request exceeding the
maximum is silently clamped to the maximum instead of failing; and on
unparsable key material construction yields the unusable sentinel. -/
theorem serviceAccountJWT_lifetime_clamped (json_key : String) (lt : Int)
    (h : wellFormedJSON json_key = true) :
    usable (ServiceAccountJWTAccessCredentials json_key lt) = true ∧
    ServiceAccountJWTAccessCredentials json_key lt =
      Credential.serviceAccountJWT json_key (min lt grpc_max_auth_token_lifetime) ∧
    (grpc_max_auth_token_lifetime < lt →
      ServiceAccountJWTAccessCredentials json_key lt =
        Credential.serviceAccountJWT json_key grpc_max_auth_token_lifetime) ∧
    (∀ bad : String, ∀ l : Int, wellFormedJSON bad = false →
      ServiceAccountJWTAccessCredentials bad l = Credential.invalidSentinel) := by
  refine ⟨by simp [ServiceAccountJWTAccessCredentials, h, usable],
    by simp [ServiceAccountJWTAccessCredentials, h], ?_, ?_⟩
  · intro hlt
    simp [ServiceAccountJWTAccessCredentials, h, min_eq_right hlt.le]
  · intro bad l hbad
    simp [ServiceAccountJWTAccessCredentials, hbad]

/-- Witness for C7: a parsable key with a lifetime request of 7200 seconds
is clamped to the 3600-second maximum. -/
theorem serviceAccountJWT_lifetime_clamped_witness :
    ServiceAccountJWTAccessCredentials "\x7bk\x7d" 7200 =
      Credential.serviceAccountJWT "\x7bk\x7d" grpc_max_auth_token_lifetime :=
  (serviceAccountJWT_lifetime_clamped "\x7bk\x7d" 7200 (by decide)).2.2.1 (by decide)

/-- C8: ApplyToCall never mutates the global state and never mutates
per-call state beyond the call's outgoing authentication data (its
non-authentication field is preserved); and CompositeCredentials mutates
neither operand: it returns a fresh value, either the rejection sentinel
or a composite node holding the two operands themselves unchanged. -/
theorem applyToCall_frame_and_composite_pure (c c1 c2 : Credential)
    (g : GlobalState) (s : CallState) :
    (ApplyToCall c g s).2.1 = g ∧
    (ApplyToCall c g s).2.2.peer = s.peer ∧
    (CompositeCredentials c1 c2 = Credential.invalidSentinel ∨
      CompositeCredentials c1 c2 = Credential.composite c1 c2 ∨
      CompositeCredentials c1 c2 = Credential.composite c2 c1) := by
  refine ⟨(applyToCall_preserves_frame c g s).1,
    (applyToCall_preserves_frame c g s).2, ?_⟩
  unfold CompositeCredentials
  cases hA : AsSecureCredentials c1 <;> cases hB : AsSecureCredentials c2 <;> simp

/-- C9: in every interleaved execution over one refresh-token credential
instance that starts with a refresh required, at most one underlying
refresh operation is ever issued, and any number of concurrent
ApplyToCall invocations produce exactly one refresh, not one each:
later callers wait for or reuse the in-flight refresh. -/
theorem refreshToken_single_inflight_refresh (trace : List RefreshEvent) :
    (runRefresh refreshInit trace).refreshCount ≤ 1 ∧
    (RefreshEvent.applyToCall ∈ trace →
      (runRefresh refreshInit trace).refreshCount = 1) := by
  have hinv := runRefresh_invariant trace refreshInit (Or.inl ⟨rfl, rfl⟩)
  constructor
  · rcases hinv with ⟨_, h⟩ | ⟨_, h⟩ <;> simp [h]
  · intro hmem
    rcases hinv with ⟨h1, _⟩ | ⟨_, h2⟩
    · exact absurd h1 (runRefresh_mem_apply trace refreshInit hmem)
    · exact h2

/-- Witness for C9: three concurrent ApplyToCall invocations interleaved
with the completion of the refresh issue exactly one refresh. -/
theorem refreshToken_single_inflight_refresh_witness :
    (runRefresh refreshInit
      [RefreshEvent.applyToCall, RefreshEvent.applyToCall,
       RefreshEvent.refreshDone, RefreshEvent.applyToCall]).refreshCount = 1 :=
  (refreshToken_single_inflight_refresh
    [RefreshEvent.applyToCall, RefreshEvent.applyToCall,
     RefreshEvent.refreshDone, RefreshEvent.applyToCall]).2 (by decide)

/-- C10: CompositeCredentials is insensitive to argument order: with a
channel-capable C and a call-capable K it produces, in either argument
order, the very same composite, with the channel-capable child (the one
whose AsSecureCredentials view is non-empty) applied first. -/
theorem compositeCredentials_order_insensitive (C K : Credential)
    (hC : channelCapable C = true) (hK : channelCapable K = false)
    (hKc : callCapable K = true) :
    CompositeCredentials C K = CompositeCredentials K C ∧
    CompositeCredentials C K = Credential.composite C K := by
  have h1 := compose_chan_call C K hC hK
  have h2 := compose_call_chan K C hK hC
  exact ⟨h1.trans h2.symm, h1⟩

/-- Witness for C10 at the compute-engine transport credential and an IAM
credential. -/
theorem compositeCredentials_order_insensitive_witness :
    CompositeCredentials Credential.computeEngine (Credential.iam "tok" "sel") =
      CompositeCredentials (Credential.iam "tok" "sel") Credential.computeEngine :=
  (compositeCredentials_order_insensitive Credential.computeEngine
    (Credential.iam "tok" "sel") (by decide) (by decide) (by decide)).1

end GrpcCredentials
